import Mathlib

/-!
Shallow embedding of the petpal-app offline-first stores and the
notification schedule-expansion logic, translated from the TypeScript
sources:

  src/src/stores/petStore.ts
  src/src/stores/appointmentStore.ts
  src/src/stores/notificationStore.ts
  src/src/services/notification.service.ts
  src/app/reminders.tsx
  src/app/pet/[id].tsx

Modelling conventions:
- `Date.now()` / `new Date().toISOString()` are modelled by an explicit
  `now : Nat` parameter (a millisecond tick); ISO timestamp strings are
  modelled as `Option Nat` fields.
- The Supabase gateway is modelled as an explicit oracle argument: a
  `GwResult` value (or a function producing one, for the per-item calls
  inside syncToServer).  `GwResult.err` is the `{ error }` outcome,
  `GwResult.ok a` is the `{ data: a }` outcome of a supabase call.
- Authentication (`getCurrentUser()`) and configuration
  (`isSupabaseConfigured()`) are the two booleans of `Env`.
- The expo Notification Scheduler state is a `List Trigger`: one entry per
  scheduled weekly notification, carrying the routing payload
  `{ reminderId, petId, type }` plus the weekly trigger data
  `(weekday, hour, minute)` that `schedulePetReminder` registers.
-/

-- ===========================================================================
-- Shared environment / gateway model
-- ===========================================================================

/-- Connectivity and authentication environment: `user` is
`getCurrentUser() !== null`, `configured` is `isSupabaseConfigured()`. -/
structure Env where
  user : Bool
  configured : Bool
deriving DecidableEq, Repr

/-- Outcome of a Supabase call: `err` is the `{ error }` branch, `ok` the
`{ data }` branch. -/
inductive GwResult (α : Type) where
  | err : GwResult α
  | ok : α → GwResult α
deriving DecidableEq, Repr

/-- The id tag check `id.startsWith('local_')` used throughout the stores,
expressed over the character list so that it evaluates by kernel
reduction. -/
def isLocalId (id : String) : Bool := List.isPrefixOf "local_".data id.data

/-- The offline id allocation pattern: the template string
`local_` + `Date.now()` used by addPet / addAppointment / addPetReminder. -/
def localId (now : Nat) : String := "local_" ++ toString now

-- ===========================================================================
-- Pet store (src/src/stores/petStore.ts)
-- ===========================================================================

/-- The Pet app model (interface Pet). -/
structure Pet where
  id : String
  name : String
  species : String
  breed : String
  age : Nat
  weight : Nat
  imageUrl : Option String := none
  gender : Option String := none
  color : Option String := none
  microchipId : Option String := none
  notes : Option String := none
  createdAt : Option Nat := none
  updatedAt : Option Nat := none
deriving DecidableEq, Repr

/-- The input of addPet: Omit of Pet at id / createdAt / updatedAt. -/
structure PetData where
  name : String
  species : String
  breed : String
  age : Nat
  weight : Nat
  imageUrl : Option String := none
  gender : Option String := none
  color : Option String := none
  microchipId : Option String := none
  notes : Option String := none
deriving DecidableEq, Repr

/-- A TypeScript Partial of Pet, as passed to updatePet. -/
structure PetPatch where
  name : Option String := none
  species : Option String := none
  breed : Option String := none
  age : Option Nat := none
  weight : Option Nat := none
  imageUrl : Option (Option String) := none
  gender : Option (Option String) := none
  color : Option (Option String) := none
  microchipId : Option (Option String) := none
  notes : Option (Option String) := none
deriving DecidableEq, Repr

/-- Spread semantics of the update `{ ...pet, ...data, updatedAt: now }`. -/
def applyPetPatch (p : Pet) (d : PetPatch) (now : Nat) : Pet :=
  { p with
    name := d.name.getD p.name
    species := d.species.getD p.species
    breed := d.breed.getD p.breed
    age := d.age.getD p.age
    weight := d.weight.getD p.weight
    imageUrl := d.imageUrl.getD p.imageUrl
    gender := d.gender.getD p.gender
    color := d.color.getD p.color
    microchipId := d.microchipId.getD p.microchipId
    notes := d.notes.getD p.notes
    updatedAt := some now }

/-- Persisted / in-memory state of the pet store. -/
structure PetState where
  pets : List Pet
  loading : Bool
  error : Option String
  lastSyncedAt : Option Nat
  pendingChanges : Bool
deriving DecidableEq, Repr

/-- The record the offline branch of addPet builds:
`{ ...petData, id: local_now, createdAt: now, updatedAt: now }`. -/
def mkLocalPet (d : PetData) (now : Nat) : Pet :=
  { id := localId now
    name := d.name
    species := d.species
    breed := d.breed
    age := d.age
    weight := d.weight
    imageUrl := d.imageUrl
    gender := d.gender
    color := d.color
    microchipId := d.microchipId
    notes := d.notes
    createdAt := some now
    updatedAt := some now }

namespace PetStore

/-- petStore.addPet.  When authenticated and configured it performs the
gateway create: on `{ error }` it sets the store error and returns null;
on `{ data }` it prepends the canonical record.  Otherwise (offline) it
prepends a fresh `local_` record and raises pendingChanges. -/
def addPet (env : Env) (gw : GwResult Pet) (now : Nat) (d : PetData) (s : PetState) :
    Option String × PetState :=
  if env.user && env.configured then
    match gw with
    | .err => (none, { s with loading := false, error := some "Failed to save pet" })
    | .ok serverPet =>
        (some serverPet.id,
         { s with pets := serverPet :: s.pets, loading := false, error := none,
                  lastSyncedAt := some now })
  else
    let newPet := mkLocalPet d now
    (some newPet.id,
     { s with pets := newPet :: s.pets, loading := false, error := none,
              pendingChanges := true })

/-- petStore.updatePet.  On a non-local id while authenticated and
configured, the gateway update is attempted first and an `{ error }`
outcome returns false without touching the collection.  The local set
maps the matching record through the patch and recomputes
pendingChanges exactly as the source does. -/
def updatePet (env : Env) (gw : GwResult Unit) (now : Nat) (id : String) (d : PetPatch)
    (s : PetState) : Bool × PetState :=
  let localSet : PetState :=
    { s with
      pets := s.pets.map (fun p => if p.id == id then applyPetPatch p d now else p)
      loading := false
      error := none
      pendingChanges := isLocalId id || !env.configured }
  if env.user && env.configured && !(isLocalId id) then
    match gw with
    | .err => (false, { s with loading := false, error := some "Failed to update pet" })
    | .ok _ => (true, localSet)
  else (true, localSet)

/-- petStore.deletePet.  Removes only the matching pet from this store;
no other store is touched. -/
def deletePet (env : Env) (gw : GwResult Unit) (id : String) (s : PetState) :
    Bool × PetState :=
  let localSet : PetState :=
    { s with pets := s.pets.filter (fun p => !(p.id == id)), loading := false, error := none }
  if env.user && env.configured && !(isLocalId id) then
    match gw with
    | .err => (false, { s with loading := false, error := some "Failed to delete pet" })
    | .ok _ => (true, localSet)
  else (true, localSet)

/-- petStore.getPetById. -/
def getPetById (id : String) (s : PetState) : Option Pet :=
  s.pets.find? (fun p => p.id == id)

/-- One iteration of the syncToServer loop: a gateway create for the local
pet; on success every record with that id is replaced by the server
record, on failure the state is left as is and the loop continues. -/
def syncStep (gw : Pet → GwResult Pet) (acc : PetState) (p : Pet) : PetState :=
  match gw p with
  | .err => acc
  | .ok serverPet =>
      { acc with pets := acc.pets.map (fun q => if q.id == p.id then serverPet else q) }

/-- petStore.syncToServer.  Returns the resulting state together with the
number of gateway create calls issued during the pass. -/
def syncToServer (env : Env) (gw : Pet → GwResult Pet) (now : Nat) (s : PetState) :
    PetState × Nat :=
  if !s.pendingChanges then (s, 0)
  else if !(env.user && env.configured) then (s, 0)
  else
    let localPets := s.pets.filter (fun p => isLocalId p.id)
    let s1 := localPets.foldl (syncStep gw) { s with loading := true }
    ({ s1 with loading := false, pendingChanges := false, lastSyncedAt := some now },
     localPets.length)

end PetStore

-- ===========================================================================
-- Appointment store (src/src/stores/appointmentStore.ts)
-- ===========================================================================

/-- The appointment type enum. -/
inductive ApptType where
  | checkup | vaccination | grooming | surgery | emergency | other
deriving DecidableEq, Repr

/-- The Appointment app model (interface Appointment).  The date string is
modelled as a Nat tick. -/
structure Appointment where
  id : String
  petId : String
  atype : ApptType
  title : String
  date : Nat
  time : Option String := none
  veterinarian : Option String := none
  clinic : Option String := none
  location : Option String := none
  notes : Option String := none
  reminderEnabled : Option Bool := none
  isCompleted : Option Bool := none
  createdAt : Option Nat := none
  updatedAt : Option Nat := none
deriving DecidableEq, Repr

/-- A TypeScript Partial of Appointment, as passed to updateAppointment. -/
structure AppointmentPatch where
  petId : Option String := none
  atype : Option ApptType := none
  title : Option String := none
  date : Option Nat := none
  time : Option (Option String) := none
  veterinarian : Option (Option String) := none
  clinic : Option (Option String) := none
  location : Option (Option String) := none
  notes : Option (Option String) := none
  reminderEnabled : Option (Option Bool) := none
  isCompleted : Option (Option Bool) := none
deriving DecidableEq, Repr

/-- Spread semantics of `{ ...apt, ...data, updatedAt: now }`. -/
def applyAppointmentPatch (a : Appointment) (d : AppointmentPatch) (now : Nat) :
    Appointment :=
  { a with
    petId := d.petId.getD a.petId
    atype := d.atype.getD a.atype
    title := d.title.getD a.title
    date := d.date.getD a.date
    time := d.time.getD a.time
    veterinarian := d.veterinarian.getD a.veterinarian
    clinic := d.clinic.getD a.clinic
    location := d.location.getD a.location
    notes := d.notes.getD a.notes
    reminderEnabled := d.reminderEnabled.getD a.reminderEnabled
    isCompleted := d.isCompleted.getD a.isCompleted
    updatedAt := some now }

/-- Persisted / in-memory state of the appointment store. -/
structure AppointmentState where
  appointments : List Appointment
  loading : Bool
  error : Option String
  lastSyncedAt : Option Nat
  pendingChanges : Bool
deriving DecidableEq, Repr

namespace AppointmentStore

/-- appointmentStore.updateAppointment, with the same shape as
PetStore.updatePet: non-local ids go through the gateway first and an
`{ error }` outcome returns false leaving the collection untouched. -/
def updateAppointment (env : Env) (gw : GwResult Unit) (now : Nat) (id : String)
    (d : AppointmentPatch) (s : AppointmentState) : Bool × AppointmentState :=
  let localSet : AppointmentState :=
    { s with
      appointments := s.appointments.map
        (fun a => if a.id == id then applyAppointmentPatch a d now else a)
      loading := false
      error := none
      pendingChanges := isLocalId id || !env.configured }
  if env.user && env.configured && !(isLocalId id) then
    match gw with
    | .err => (false, { s with loading := false, error := some "Failed to update appointment" })
    | .ok _ => (true, localSet)
  else (true, localSet)

/-- appointmentStore.deleteAppointment, with the same shape as
PetStore.deletePet: a failing remote call on a non-local id returns
false leaving the collection untouched; otherwise the matching record
is filtered out.  pendingChanges is never touched by deletion. -/
def deleteAppointment (env : Env) (gw : GwResult Unit) (id : String)
    (s : AppointmentState) : Bool × AppointmentState :=
  let localSet : AppointmentState :=
    { s with appointments := s.appointments.filter (fun a => !(a.id == id)),
             loading := false, error := none }
  if env.user && env.configured && !(isLocalId id) then
    match gw with
    | .err => (false, { s with loading := false, error := some "Failed to delete appointment" })
    | .ok _ => (true, localSet)
  else (true, localSet)

end AppointmentStore

-- ===========================================================================
-- Notification service (src/src/services/notification.service.ts)
-- ===========================================================================

/-- The reminder type enum of PetReminder. -/
inductive ReminderType where
  | feeding | walk | medication | grooming | vet | vaccination | custom
deriving DecidableEq, Repr

/-- The PetReminder model (interface PetReminder); the `time` object is
flattened to the hour / minute pair it carries. -/
structure PetReminder where
  id : String
  petId : String
  petName : String
  rtype : ReminderType
  title : String
  body : String
  hour : Nat
  minute : Nat
  daysOfWeek : List Nat
  enabled : Bool
deriving DecidableEq, Repr

/-- One scheduled weekly notification: the `(weekday, hour, minute)`
trigger plus the `{ reminderId, petId, type }` payload that
cancelPetReminder keys on. -/
structure Trigger where
  reminderId : String
  petId : String
  rtype : ReminderType
  weekday : Nat
  hour : Nat
  minute : Nat
deriving DecidableEq, Repr

/-- The trigger schedulePetReminder registers for one weekday. -/
def reminderTrigger (r : PetReminder) (d : Nat) : Trigger :=
  { reminderId := r.id, petId := r.petId, rtype := r.rtype,
    weekday := d, hour := r.hour, minute := r.minute }

namespace NotificationService

/-- notificationService.cancelPetReminder: cancel every scheduled
notification whose payload reminderId matches.  Cancelling when nothing
matches leaves the table unchanged. -/
def cancelPetReminder (reminderId : String) (ts : List Trigger) : List Trigger :=
  ts.filter (fun t => !(t.reminderId == reminderId))

/-- notificationService.schedulePetReminder: always cancel the existing
triggers of this reminder first, then, unless the reminder is disabled
or has no days, register one weekly trigger per day of daysOfWeek. -/
def schedulePetReminder (r : PetReminder) (ts : List Trigger) : List Trigger :=
  let ts1 := cancelPetReminder r.id ts
  if !r.enabled || r.daysOfWeek.isEmpty then ts1
  else ts1 ++ r.daysOfWeek.map (reminderTrigger r)

end NotificationService

-- ===========================================================================
-- Notification store (src/src/stores/notificationStore.ts)
-- ===========================================================================

/-- The NotificationSettings record. -/
structure NotificationSettings where
  pushEnabled : Bool
  reminders : Bool
  achievements : Bool
  weeklyReport : Bool
  marketing : Bool
  appointmentReminders : Bool
  appointmentReminderMinutes : Nat
deriving DecidableEq, Repr

/-- A TypeScript Partial of NotificationSettings, as passed to
updateSettings. -/
structure SettingsPatch where
  pushEnabled : Option Bool := none
  reminders : Option Bool := none
  achievements : Option Bool := none
  weeklyReport : Option Bool := none
  marketing : Option Bool := none
  appointmentReminders : Option Bool := none
  appointmentReminderMinutes : Option Nat := none
deriving DecidableEq, Repr

/-- Spread semantics of `{ ...currentSettings, ...newSettings }`. -/
def applySettingsPatch (cur : NotificationSettings) (u : SettingsPatch) :
    NotificationSettings :=
  { pushEnabled := u.pushEnabled.getD cur.pushEnabled
    reminders := u.reminders.getD cur.reminders
    achievements := u.achievements.getD cur.achievements
    weeklyReport := u.weeklyReport.getD cur.weeklyReport
    marketing := u.marketing.getD cur.marketing
    appointmentReminders := u.appointmentReminders.getD cur.appointmentReminders
    appointmentReminderMinutes := u.appointmentReminderMinutes.getD cur.appointmentReminderMinutes }

/-- The input of addPetReminder: Omit of PetReminder at id. -/
structure PetReminderData where
  petId : String
  petName : String
  rtype : ReminderType
  title : String
  body : String
  hour : Nat
  minute : Nat
  daysOfWeek : List Nat
  enabled : Bool
deriving DecidableEq, Repr

/-- Attach an id to reminder data, as `{ ...reminderData, id }` does. -/
def withId (d : PetReminderData) (id : String) : PetReminder :=
  { id := id, petId := d.petId, petName := d.petName, rtype := d.rtype,
    title := d.title, body := d.body, hour := d.hour, minute := d.minute,
    daysOfWeek := d.daysOfWeek, enabled := d.enabled }

/-- A TypeScript Partial of PetReminder, as passed to updatePetReminder;
the `time` object is patched as one unit. -/
structure ReminderPatch where
  petId : Option String := none
  petName : Option String := none
  rtype : Option ReminderType := none
  title : Option String := none
  body : Option String := none
  time : Option (Nat × Nat) := none
  daysOfWeek : Option (List Nat) := none
  enabled : Option Bool := none
deriving DecidableEq, Repr

/-- Spread semantics of `{ ...existingReminder, ...updates }`. -/
def applyReminderPatch (r : PetReminder) (u : ReminderPatch) : PetReminder :=
  { r with
    petId := u.petId.getD r.petId
    petName := u.petName.getD r.petName
    rtype := u.rtype.getD r.rtype
    title := u.title.getD r.title
    body := u.body.getD r.body
    hour := (u.time.map Prod.fst).getD r.hour
    minute := (u.time.map Prod.snd).getD r.minute
    daysOfWeek := u.daysOfWeek.getD r.daysOfWeek
    enabled := u.enabled.getD r.enabled }

/-- Persisted / in-memory state of the notification store. -/
structure NotificationState where
  settings : NotificationSettings
  petReminders : List PetReminder
  isInitialized : Bool
  permissionGranted : Bool
  lastSyncedAt : Option Nat
  pendingChanges : Bool
deriving DecidableEq, Repr

namespace NotificationStore

/-- notificationStore.scheduleAllReminders: a no-op unless both gate
toggles are on; otherwise every enabled reminder is passed through
schedulePetReminder in store order. -/
def scheduleAllReminders (s : NotificationState) (ts : List Trigger) : List Trigger :=
  if !s.settings.pushEnabled || !s.settings.reminders then ts
  else s.petReminders.foldl
    (fun acc r => if r.enabled then NotificationService.schedulePetReminder r acc else acc) ts

/-- notificationStore.cancelAllReminders, which calls the scheduler's
cancelAllScheduledNotificationsAsync: the whole trigger table is wiped. -/
def cancelAllReminders (_ts : List Trigger) : List Trigger := []

/-- notificationStore.updateSettings.  The settings record is merged and
stored (the server upsert result is ignored); the scheduler is touched
only on pushEnabled transitions: true to false cancels everything,
false to true re-registers the live set. -/
def updateSettings (u : SettingsPatch) (s : NotificationState) (ts : List Trigger) :
    NotificationState × List Trigger :=
  let currentSettings := s.settings
  let updatedSettings := applySettingsPatch currentSettings u
  let s1 := { s with settings := updatedSettings }
  let ts1 := if currentSettings.pushEnabled && !updatedSettings.pushEnabled
             then cancelAllReminders ts else ts
  let ts2 := if !currentSettings.pushEnabled && updatedSettings.pushEnabled
             then scheduleAllReminders s1 ts1 else ts1
  (s1, ts2)

/-- notificationStore.addPetReminder.  Online: a gateway `{ error }`
returns null with no state change; `{ data }` appends the canonical
reminder.  Offline: appends a `local_` reminder and raises
pendingChanges.  Either stored reminder is scheduled only when both
gate toggles are on and the reminder is enabled. -/
def addPetReminder (env : Env) (gw : GwResult PetReminder) (now : Nat)
    (d : PetReminderData) (s : NotificationState) (ts : List Trigger) :
    Option String × NotificationState × List Trigger :=
  if env.user && env.configured then
    match gw with
    | .err => (none, s, ts)
    | .ok newReminder =>
        let s1 := { s with petReminders := s.petReminders ++ [newReminder] }
        let ts1 := if s1.settings.pushEnabled && s1.settings.reminders && newReminder.enabled
                   then NotificationService.schedulePetReminder newReminder ts else ts
        (some newReminder.id, s1, ts1)
  else
    let newReminder := withId d (localId now)
    let s1 := { s with petReminders := s.petReminders ++ [newReminder],
                       pendingChanges := true }
    let ts1 := if s1.settings.pushEnabled && s1.settings.reminders && newReminder.enabled
               then NotificationService.schedulePetReminder newReminder ts else ts
    (some newReminder.id, s1, ts1)

/-- The commit half of updatePetReminder, reached once the optional
gateway call has not failed: store the merged reminder, recompute
pendingChanges, and — only when the gate is on — update the scheduler,
cancel-then-recreate style via schedulePetReminder when the merged
reminder is enabled, plain cancel when it is disabled. -/
def updateCommit (env : Env) (id : String) (updatedReminder : PetReminder)
    (s : NotificationState) (ts : List Trigger) :
    Bool × NotificationState × List Trigger :=
  let s1 := { s with
    petReminders := s.petReminders.map
      (fun r => if r.id == id then updatedReminder else r)
    pendingChanges := isLocalId id || !env.configured }
  let ts1 := if s.settings.pushEnabled && s.settings.reminders then
               if updatedReminder.enabled then
                 NotificationService.schedulePetReminder updatedReminder ts
               else NotificationService.cancelPetReminder id ts
             else ts
  (true, s1, ts1)

/-- notificationStore.updatePetReminder.  An unknown id returns false
before any side effect.  A known non-local id goes through the gateway
first, `{ error }` returning false with no state change.  Otherwise the
update commits via updateCommit. -/
def updatePetReminder (env : Env) (gw : GwResult Unit) (id : String) (u : ReminderPatch)
    (s : NotificationState) (ts : List Trigger) :
    Bool × NotificationState × List Trigger :=
  match s.petReminders.find? (fun r => r.id == id) with
  | none => (false, s, ts)
  | some existingReminder =>
    if env.user && env.configured && !(isLocalId id) then
      match gw with
      | .err => (false, s, ts)
      | .ok _ => updateCommit env id (applyReminderPatch existingReminder u) s ts
    else updateCommit env id (applyReminderPatch existingReminder u) s ts

/-- One iteration of the notification syncToServer loop, mirroring
PetStore.syncStep. -/
def syncStep (gw : PetReminder → GwResult PetReminder) (acc : NotificationState)
    (r : PetReminder) : NotificationState :=
  match gw r with
  | .err => acc
  | .ok serverReminder =>
      { acc with
        petReminders := acc.petReminders.map
          (fun q => if q.id == r.id then serverReminder else q) }

/-- notificationStore.syncToServer.  The call count includes the settings
upsert issued before the per-reminder creates. -/
def syncToServer (env : Env) (gw : PetReminder → GwResult PetReminder) (now : Nat)
    (s : NotificationState) : NotificationState × Nat :=
  if !s.pendingChanges then (s, 0)
  else if !(env.user && env.configured) then (s, 0)
  else
    let localReminders := s.petReminders.filter (fun r => isLocalId r.id)
    let s1 := localReminders.foldl (syncStep gw) s
    ({ s1 with pendingChanges := false, lastSyncedAt := some now },
     1 + localReminders.length)

end NotificationStore

-- ===========================================================================
-- Reminders screen formatting (src/app/reminders.tsx)
-- ===========================================================================

namespace RemindersScreen

/-- The DAYS_SHORT constant. -/
def DAYS_SHORT : List String := ["Sun", "Mon", "Tue", "Wed", "Thu", "Fri", "Sat"]

/-- The formatDays callback of the reminders screen, verbatim: the three
special cases test length and membership only, and the fallback maps the
days in input order through DAYS_SHORT and joins with a comma. -/
def formatDays (days : List Nat) : String :=
  if days.length == 7 then "Every day"
  else if days.length == 5 && !(days.contains 0) && !(days.contains 6) then "Weekdays"
  else if days.length == 2 && days.contains 0 && days.contains 6 then "Weekends"
  else String.intercalate ", " (days.map (fun d => DAYS_SHORT.getD d ""))

end RemindersScreen

-- ===========================================================================
-- Whole-system view of pet deletion (src/app/pet/[id].tsx handleDelete)
-- ===========================================================================

/-- The four stateful components the cascade claim ranges over. -/
structure SystemState where
  petS : PetState
  apptS : AppointmentState
  noteS : NotificationState
  triggers : List Trigger
deriving DecidableEq, Repr

/-- The delete flow the app runs for a pet: the detail screen's
handleDelete invokes petStore.deletePet and nothing else — no
appointment-store, notification-store or scheduler calls are made. -/
def handleDeletePet (env : Env) (gw : GwResult Unit) (id : String) (sys : SystemState) :
    Bool × SystemState :=
  let r := PetStore.deletePet env gw id sys.petS
  (r.fst, { sys with petS := r.snd })

-- ===========================================================================
-- Concrete fixtures used by counterexamples and witnesses
-- ===========================================================================

/-- Authenticated user with a configured Supabase gateway. -/
def envOnline : Env := { user := true, configured := true }

/-- Unauthenticated session: every store takes its offline branch. -/
def envOffline : Env := { user := false, configured := true }

/-- Default notification settings of the store (DEFAULT_SETTINGS). -/
def settingsOn : NotificationSettings :=
  { pushEnabled := true, reminders := true, achievements := true, weeklyReport := false,
    marketing := false, appointmentReminders := true, appointmentReminderMinutes := 60 }

/-- A pet stored under a canonical (non-local) id. -/
def petP1 : Pet :=
  { id := "p1", name := "Rex", species := "dog", breed := "lab", age := 3, weight := 20 }

/-- A pet still carrying an offline-allocated id. -/
def petLocal : Pet :=
  { id := "local_1", name := "Mia", species := "cat", breed := "", age := 2, weight := 4 }

/-- An appointment referencing petP1. -/
def apptA1 : Appointment :=
  { id := "a1", petId := "p1", atype := ApptType.checkup, title := "Annual checkup", date := 5 }

/-- An enabled weekday reminder (Mon..Fri at 8:00) referencing petP1. -/
def remR1 : PetReminder :=
  { id := "rem1", petId := "p1", petName := "Rex", rtype := ReminderType.feeding,
    title := "Breakfast", body := "Feed Rex", hour := 8, minute := 0,
    daysOfWeek := [1, 2, 3, 4, 5], enabled := true }

/-- The five triggers remR1 expands to. -/
def trigsR1 : List Trigger := remR1.daysOfWeek.map (reminderTrigger remR1)

/-- Pet-store state holding only petP1, with nothing pending. -/
def petStateP1 : PetState :=
  { pets := [petP1], loading := false, error := none, lastSyncedAt := none,
    pendingChanges := false }

/-- Notification-store state holding remR1 with the gate on. -/
def noteStateR1 : NotificationState :=
  { settings := settingsOn, petReminders := [remR1], isInitialized := true,
    permissionGranted := true, lastSyncedAt := none, pendingChanges := false }

/-- Whole-system state in which petP1 has an appointment, a reminder and
its five scheduled triggers. -/
def sysP1 : SystemState :=
  { petS := petStateP1
    apptS := { appointments := [apptA1], loading := false, error := none,
               lastSyncedAt := none, pendingChanges := false }
    noteS := noteStateR1
    triggers := trigsR1 }

/-- Data for a pet created while offline. -/
def dataMia : PetData :=
  { name := "Mia", species := "cat", breed := "", age := 2, weight := 4 }

/-- Data for a second, different pet created while offline. -/
def dataRex : PetData :=
  { name := "Rex", species := "dog", breed := "lab", age := 3, weight := 20 }


-- ===========================================================================
-- Helper lemmas (shared across claims)
-- ===========================================================================

/-- Mapping a point-update function over a list in which no element
satisfies the selector leaves the list unchanged. -/
theorem map_update_eq_self {α : Type} (l : List α) (pred : α → Bool) (f : α → α)
    (h : ∀ a ∈ l, pred a = false) :
    l.map (fun a => if pred a then f a else a) = l := by
  induction l with
  | nil => rfl
  | cons x xs ih =>
      simp only [List.map_cons, h x (List.mem_cons_self _ _), if_neg Bool.false_ne_true,
        List.cons.injEq, true_and]
      exact ih (fun a ha => h a (List.mem_cons_of_mem _ ha))

/-- Filtering by the negation of a selector no element satisfies keeps
every element. -/
theorem filter_neg_eq_self {α : Type} (l : List α) (pred : α → Bool)
    (h : ∀ a ∈ l, pred a = false) :
    l.filter (fun a => !(pred a)) = l := by
  induction l with
  | nil => rfl
  | cons x xs ih =>
      have hx := h x (List.mem_cons_self _ _)
      rw [List.filter_cons, ih (fun a ha => h a (List.mem_cons_of_mem _ ha))]
      simp [hx]

/-- Propositional variant of map_update_eq_self, in the normal form simp
produces for the String-keyed point updates of the stores. -/
theorem map_update_eq_self_of_not {α : Type} (l : List α) (pred : α → Prop)
    [DecidablePred pred] (f : α → α) (h : ∀ a ∈ l, ¬ pred a) :
    l.map (fun a => if pred a then f a else a) = l := by
  induction l with
  | nil => rfl
  | cons x xs ih =>
      rw [List.map_cons, if_neg (h x (List.mem_cons_self _ _)),
        ih (fun a ha => h a (List.mem_cons_of_mem _ ha))]

/-- Propositional variant of filter_neg_eq_self. -/
theorem filter_not_eq_self {α : Type} (l : List α) (pred : α → Prop)
    [DecidablePred pred] (h : ∀ a ∈ l, ¬ pred a) :
    l.filter (fun a => !(decide (pred a))) = l := by
  induction l with
  | nil => rfl
  | cons x xs ih =>
      have hx : decide (pred x) = false := decide_eq_false (h x (List.mem_cons_self _ _))
      rw [List.filter_cons, ih (fun a ha => h a (List.mem_cons_of_mem _ ha))]
      simp [hx]

-- ===========================================================================
-- C9 — weekday-set summarization
-- ===========================================================================

/-- C9 counterexample: formatDays is not order-insensitive.  The claim
says formatDays [2,4] and formatDays [4,2] both yield "Tue, Thu"; the
code joins the abbreviations in input order, so [4,2] yields
"Thu, Tue". -/
theorem c9_formatDays_order_cex :
    RemindersScreen.formatDays [2, 4] = "Tue, Thu" ∧
    RemindersScreen.formatDays [4, 2] = "Thu, Tue" ∧
    RemindersScreen.formatDays [4, 2] ≠ RemindersScreen.formatDays [2, 4] := by
  decide

/-- C9 (amended): formatDays is pure and yields "Every day" for any
7-element list, "Weekdays" for any 5-element list avoiding 0 and 6,
"Weekends" for any 2-element list containing 0 and 6, and otherwise the
day abbreviations joined with a comma in the input list order (not in
canonical Sunday-first order). -/
theorem c9_formatDays_amended (days : List Nat) :
    (days.length = 7 → RemindersScreen.formatDays days = "Every day") ∧
    (days.length = 5 → days.contains 0 = false → days.contains 6 = false →
      RemindersScreen.formatDays days = "Weekdays") ∧
    (days.length = 2 → days.contains 0 = true → days.contains 6 = true →
      RemindersScreen.formatDays days = "Weekends") ∧
    (days.length ≠ 7 →
      (days.length = 5 → (days.contains 0 || days.contains 6) = true) →
      (days.length = 2 → (days.contains 0 && days.contains 6) = false) →
      RemindersScreen.formatDays days =
        String.intercalate ", "
          (days.map (fun d => RemindersScreen.DAYS_SHORT.getD d ""))) := by
  refine ⟨?_, ?_, ?_, ?_⟩
  · intro h7
    simp [RemindersScreen.formatDays, h7]
  · intro h5 h0 h6
    unfold RemindersScreen.formatDays
    rw [h5, h0, h6]
    simp
  · intro h2 h0 h6
    unfold RemindersScreen.formatDays
    rw [h2, h0, h6]
    simp
  · intro h7 imp5 imp2
    have e7 : (days.length == 7) = false := beq_eq_false_iff_ne.mpr h7
    have e5 : ((days.length == 5 && !(days.contains 0)) && !(days.contains 6)) = false := by
      by_cases hl : days.length = 5
      · have hor := imp5 hl
        cases hc0 : days.contains 0 <;> cases hc6 : days.contains 6 <;>
          simp_all
      · have : (days.length == 5) = false := beq_eq_false_iff_ne.mpr hl
        simp [this]
    have e2 : ((days.length == 2 && days.contains 0) && days.contains 6) = false := by
      by_cases hl : days.length = 2
      · have hand := imp2 hl
        cases hc0 : days.contains 0 <;> cases hc6 : days.contains 6 <;>
          simp_all
      · have : (days.length == 2) = false := beq_eq_false_iff_ne.mpr hl
        simp [this]
    simp only [RemindersScreen.formatDays, e7, e5, e2, Bool.false_eq_true, if_false]

/-- C9 witness: the amended theorem applied at the four example inputs of
the spec. -/
theorem c9_formatDays_amended_witness :
    RemindersScreen.formatDays [0, 1, 2, 3, 4, 5, 6] = "Every day" ∧
    RemindersScreen.formatDays [1, 2, 3, 4, 5] = "Weekdays" ∧
    RemindersScreen.formatDays [0, 6] = "Weekends" ∧
    RemindersScreen.formatDays [2, 4] =
      String.intercalate ", "
        ([2, 4].map (fun d => RemindersScreen.DAYS_SHORT.getD d "")) :=
  ⟨(c9_formatDays_amended [0, 1, 2, 3, 4, 5, 6]).1 (by decide),
   (c9_formatDays_amended [1, 2, 3, 4, 5]).2.1 (by decide) (by decide) (by decide),
   (c9_formatDays_amended [0, 6]).2.2.1 (by decide) (by decide) (by decide),
   (c9_formatDays_amended [2, 4]).2.2.2 (by decide) (by decide) (by decide)⟩

-- ===========================================================================
-- C3 — create under gateway failure
-- ===========================================================================

/-- C3 counterexample: with an authenticated, configured session a
transient gateway failure on create is surfaced to the caller as a null
result and an error message, and nothing is stored: no Local record, no
pending flag. -/
theorem c3_create_gateway_error_cex :
    (PetStore.addPet envOnline GwResult.err 10 dataMia petStateP1).fst = none ∧
    (PetStore.addPet envOnline GwResult.err 10 dataMia petStateP1).snd.pets =
      petStateP1.pets ∧
    (PetStore.addPet envOnline GwResult.err 10 dataMia petStateP1).snd.error =
      some "Failed to save pet" ∧
    (PetStore.addPet envOnline GwResult.err 10 dataMia petStateP1).snd.pendingChanges =
      false := by
  decide

/-- C3 (amended): only the offline path (unauthenticated session or
unconfigured gateway) stores the record immediately under a fresh Local
id with pending=true and returns a usable id; when the gateway create
call itself fails, addPet and addPetReminder return none without storing
anything, and addPet records an error message. -/
theorem c3_create_offline_vs_gateway_error (env : Env) (gwp : GwResult Pet)
    (gwr : GwResult PetReminder) (now : Nat) (d : PetData) (rd : PetReminderData)
    (s : PetState) (ns : NotificationState) (ts : List Trigger) :
    ((env.user && env.configured) = false →
      PetStore.addPet env gwp now d s =
        (some (localId now),
         { s with pets := mkLocalPet d now :: s.pets, loading := false, error := none,
                  pendingChanges := true })) ∧
    ((env.user && env.configured) = true →
      PetStore.addPet env GwResult.err now d s =
        (none, { s with loading := false, error := some "Failed to save pet" })) ∧
    ((env.user && env.configured) = false →
      (NotificationStore.addPetReminder env gwr now rd ns ts).fst = some (localId now) ∧
      (NotificationStore.addPetReminder env gwr now rd ns ts).snd.fst.pendingChanges = true ∧
      (NotificationStore.addPetReminder env gwr now rd ns ts).snd.fst.petReminders =
        ns.petReminders ++ [withId rd (localId now)]) ∧
    ((env.user && env.configured) = true →
      NotificationStore.addPetReminder env GwResult.err now rd ns ts = (none, ns, ts)) := by
  refine ⟨?_, ?_, ?_, ?_⟩
  · intro hoff
    simp [PetStore.addPet, hoff, mkLocalPet]
  · intro hon
    simp [PetStore.addPet, hon]
  · intro hoff
    refine ⟨?_, ?_, ?_⟩ <;> simp [NotificationStore.addPetReminder, hoff, withId]
  · intro hon
    simp [NotificationStore.addPetReminder, hon]

/-- C3 witness: the amended theorem applied to a concrete offline create
and a concrete failing online create. -/
theorem c3_create_offline_vs_gateway_error_witness :
    ((envOffline.user && envOffline.configured) = false →
      PetStore.addPet envOffline GwResult.err 42 dataMia petStateP1 =
        (some (localId 42),
         { petStateP1 with pets := mkLocalPet dataMia 42 :: petStateP1.pets,
                           loading := false, error := none, pendingChanges := true })) ∧
    ((envOnline.user && envOnline.configured) = true →
      PetStore.addPet envOnline GwResult.err 42 dataMia petStateP1 =
        (none, { petStateP1 with loading := false, error := some "Failed to save pet" })) ∧
    PetStore.addPet envOffline GwResult.err 42 dataMia petStateP1 =
      (some (localId 42),
       { petStateP1 with pets := mkLocalPet dataMia 42 :: petStateP1.pets,
                         loading := false, error := none, pendingChanges := true }) :=
  ⟨(c3_create_offline_vs_gateway_error envOffline GwResult.err GwResult.err 42 dataMia
      { petId := "p1", petName := "Rex", rtype := ReminderType.feeding, title := "t",
        body := "b", hour := 8, minute := 0, daysOfWeek := [1], enabled := true }
      petStateP1 noteStateR1 []).1,
   (c3_create_offline_vs_gateway_error envOnline GwResult.err GwResult.err 42 dataMia
      { petId := "p1", petName := "Rex", rtype := ReminderType.feeding, title := "t",
        body := "b", hour := 8, minute := 0, daysOfWeek := [1], enabled := true }
      petStateP1 noteStateR1 []).2.1,
   (c3_create_offline_vs_gateway_error envOffline GwResult.err GwResult.err 42 dataMia
      { petId := "p1", petName := "Rex", rtype := ReminderType.feeding, title := "t",
        body := "b", hour := 8, minute := 0, daysOfWeek := [1], enabled := true }
      petStateP1 noteStateR1 []).1 (by decide)⟩

-- ===========================================================================
-- C5 — update/remove on a Remote id under gateway failure
-- ===========================================================================

/-- The concrete patch used by the C5 counterexample. -/
def patchNameBo : PetPatch := { name := some "Bo" }

/-- C5 counterexample: a gateway failure while updating the Remote-id pet
p1 returns false and leaves the collection and the pending flag exactly
as they were — the local mutation does not apply. -/
theorem c5_remote_failure_cex :
    (PetStore.updatePet envOnline GwResult.err 20 "p1" patchNameBo petStateP1).fst = false ∧
    (PetStore.updatePet envOnline GwResult.err 20 "p1" patchNameBo petStateP1).snd.pets =
      [petP1] ∧
    (PetStore.updatePet envOnline GwResult.err 20 "p1" patchNameBo petStateP1).snd.pendingChanges =
      false := by
  decide

/-- C5 (amended): on a Remote id, a failing gateway call makes the
update operations (updatePet, updateAppointment) and the remove
operations (deletePet, deleteAppointment) return false with the
collection untouched (only loading/error change); the local mutation
applies when the id is Local — updates raising the pending flag,
deletions leaving it as it was — in which case no gateway outcome is
consulted at all. -/
theorem c5_remote_failure_behavior (env : Env) (now : Nat) (id : String)
    (d : PetPatch) (s : PetState) (ad : AppointmentPatch) (sa : AppointmentState) :
    ((env.user && env.configured && !(isLocalId id)) = true →
      PetStore.updatePet env GwResult.err now id d s =
        (false, { s with loading := false, error := some "Failed to update pet" })) ∧
    (isLocalId id = true → ∀ gw : GwResult Unit,
      PetStore.updatePet env gw now id d s =
        (true,
         { s with
           pets := s.pets.map (fun p => if p.id == id then applyPetPatch p d now else p)
           loading := false
           error := none
           pendingChanges := true })) ∧
    ((env.user && env.configured && !(isLocalId id)) = true →
      AppointmentStore.updateAppointment env GwResult.err now id ad sa =
        (false, { sa with loading := false, error := some "Failed to update appointment" })) ∧
    (isLocalId id = true → ∀ gw : GwResult Unit,
      AppointmentStore.updateAppointment env gw now id ad sa =
        (true,
         { sa with
           appointments := sa.appointments.map
             (fun a => if a.id == id then applyAppointmentPatch a ad now else a)
           loading := false
           error := none
           pendingChanges := true })) ∧
    ((env.user && env.configured && !(isLocalId id)) = true →
      PetStore.deletePet env GwResult.err id s =
        (false, { s with loading := false, error := some "Failed to delete pet" })) ∧
    (isLocalId id = true → ∀ gw : GwResult Unit,
      PetStore.deletePet env gw id s =
        (true,
         { s with pets := s.pets.filter (fun p => !(p.id == id)),
                  loading := false, error := none })) ∧
    ((env.user && env.configured && !(isLocalId id)) = true →
      AppointmentStore.deleteAppointment env GwResult.err id sa =
        (false, { sa with loading := false, error := some "Failed to delete appointment" })) ∧
    (isLocalId id = true → ∀ gw : GwResult Unit,
      AppointmentStore.deleteAppointment env gw id sa =
        (true,
         { sa with appointments := sa.appointments.filter (fun a => !(a.id == id)),
                   loading := false, error := none })) := by
  refine ⟨?_, ?_, ?_, ?_, ?_, ?_, ?_, ?_⟩
  · intro hcond
    simp [PetStore.updatePet, hcond]
  · intro hloc gw
    simp [PetStore.updatePet, hloc]
  · intro hcond
    simp [AppointmentStore.updateAppointment, hcond]
  · intro hloc gw
    simp [AppointmentStore.updateAppointment, hloc]
  · intro hcond
    simp [PetStore.deletePet, hcond]
  · intro hloc gw
    simp [PetStore.deletePet, hloc]
  · intro hcond
    simp [AppointmentStore.deleteAppointment, hcond]
  · intro hloc gw
    simp [AppointmentStore.deleteAppointment, hloc]

/-- C5 witness: the amended theorem applied at the concrete failing
remote update and remove of the counterexample state and at a local-id
update and remove. -/
theorem c5_remote_failure_behavior_witness :
    ((envOnline.user && envOnline.configured && !(isLocalId "p1")) = true →
      PetStore.updatePet envOnline GwResult.err 20 "p1" patchNameBo petStateP1 =
        (false, { petStateP1 with loading := false, error := some "Failed to update pet" })) ∧
    PetStore.updatePet envOnline GwResult.err 20 "p1" patchNameBo petStateP1 =
      (false, { petStateP1 with loading := false, error := some "Failed to update pet" }) ∧
    PetStore.updatePet envOnline (GwResult.ok ()) 21 "local_1" patchNameBo petStateP1 =
      (true,
       { petStateP1 with
         pets := petStateP1.pets.map
           (fun p => if p.id == "local_1" then applyPetPatch p patchNameBo 21 else p)
         loading := false
         error := none
         pendingChanges := true }) ∧
    PetStore.deletePet envOnline GwResult.err "p1" petStateP1 =
      (false, { petStateP1 with loading := false, error := some "Failed to delete pet" }) ∧
    PetStore.deletePet envOnline (GwResult.ok ()) "local_1" petStateP1 =
      (true,
       { petStateP1 with
         pets := petStateP1.pets.filter (fun p => !(p.id == "local_1"))
         loading := false
         error := none }) ∧
    AppointmentStore.deleteAppointment envOnline GwResult.err "a1" sysP1.apptS =
      (false, { sysP1.apptS with loading := false,
                                 error := some "Failed to delete appointment" }) ∧
    AppointmentStore.deleteAppointment envOnline (GwResult.ok ()) "local_1" sysP1.apptS =
      (true,
       { sysP1.apptS with
         appointments := sysP1.apptS.appointments.filter (fun a => !(a.id == "local_1"))
         loading := false
         error := none }) :=
  ⟨(c5_remote_failure_behavior envOnline 20 "p1" patchNameBo petStateP1 {} sysP1.apptS).1,
   (c5_remote_failure_behavior envOnline 20 "p1" patchNameBo petStateP1 {} sysP1.apptS).1
     (by decide),
   (c5_remote_failure_behavior envOnline 21 "local_1" patchNameBo petStateP1 {} sysP1.apptS).2.1
     (by decide) (GwResult.ok ()),
   (c5_remote_failure_behavior envOnline 20 "p1" patchNameBo petStateP1 {} sysP1.apptS).2.2.2.2.1
     (by decide),
   (c5_remote_failure_behavior envOnline 21 "local_1" patchNameBo petStateP1 {}
      sysP1.apptS).2.2.2.2.2.1 (by decide) (GwResult.ok ()),
   (c5_remote_failure_behavior envOnline 20 "a1" patchNameBo petStateP1 {}
      sysP1.apptS).2.2.2.2.2.2.1 (by decide),
   (c5_remote_failure_behavior envOnline 21 "local_1" patchNameBo petStateP1 {}
      sysP1.apptS).2.2.2.2.2.2.2 (by decide) (GwResult.ok ())⟩

-- ===========================================================================
-- C8 — operations on an unknown id
-- ===========================================================================

/-- A pet store with no records but pending offline work. -/
def petStatePending : PetState :=
  { pets := [], loading := false, error := none, lastSyncedAt := none,
    pendingChanges := true }

/-- C8 counterexample: updating an id absent from the pet store returns
true (not a failure) and flips the store's pendingChanges flag from
true to false, so the state is not left unchanged. -/
theorem c8_unknown_id_cex :
    (PetStore.updatePet envOnline (GwResult.ok ()) 30 "ghost" {} petStatePending).fst = true ∧
    (PetStore.updatePet envOnline (GwResult.ok ()) 30 "ghost" {} petStatePending).snd.pendingChanges =
      false ∧
    petStatePending.pendingChanges = true := by
  decide

/-- C8 (amended): only updatePetReminder treats an unknown id as a
failure with no side effects; updatePet and deletePet return true on an
unknown id, still consult the gateway on non-local ids, and leave the
record list unchanged while updatePet recomputes pendingChanges. -/
theorem c8_unknown_id_behavior (env : Env) (gw : GwResult Unit) (now : Nat) (id : String)
    (u : ReminderPatch) (ns : NotificationState) (ts : List Trigger)
    (d : PetPatch) (s : PetState) :
    (ns.petReminders.find? (fun r => r.id == id) = none →
      NotificationStore.updatePetReminder env gw id u ns ts = (false, ns, ts)) ∧
    ((∀ p ∈ s.pets, (p.id == id) = false) →
      PetStore.updatePet env (GwResult.ok ()) now id d s =
        (true,
         { s with loading := false, error := none,
                  pendingChanges := isLocalId id || !env.configured })) ∧
    ((∀ p ∈ s.pets, (p.id == id) = false) →
      PetStore.deletePet env (GwResult.ok ()) id s =
        (true, { s with loading := false, error := none })) := by
  refine ⟨?_, ?_, ?_⟩
  · intro hfind
    simp [NotificationStore.updatePetReminder, hfind]
  · intro hnone
    have hnone2 : ∀ p ∈ s.pets, ¬ p.id = id := by
      intro p hp
      simpa using hnone p hp
    have hmap := map_update_eq_self_of_not s.pets (fun p => p.id = id)
      (fun p => applyPetPatch p d now) hnone2
    cases hcond : (env.user && env.configured && !(isLocalId id)) <;>
      simp [PetStore.updatePet, hcond, hmap]
  · intro hnone
    have hnone2 : ∀ p ∈ s.pets, ¬ p.id = id := by
      intro p hp
      simpa using hnone p hp
    cases hcond : (env.user && env.configured && !(isLocalId id)) <;>
      simp [PetStore.deletePet, hcond] <;> exact hnone2

/-- C8 witness: the amended theorem applied at a concrete unknown id for
all three operations. -/
theorem c8_unknown_id_behavior_witness :
    (noteStateR1.petReminders.find? (fun r => r.id == "ghost") = none) ∧
    NotificationStore.updatePetReminder envOnline (GwResult.ok ()) "ghost" {} noteStateR1 trigsR1 =
      (false, noteStateR1, trigsR1) ∧
    PetStore.updatePet envOnline (GwResult.ok ()) 30 "ghost" {} petStatePending =
      (true,
       { petStatePending with loading := false, error := none,
                              pendingChanges := isLocalId "ghost" || !envOnline.configured }) ∧
    PetStore.deletePet envOnline (GwResult.ok ()) "ghost" petStatePending =
      (true, { petStatePending with loading := false, error := none }) :=
  ⟨by decide,
   (c8_unknown_id_behavior envOnline (GwResult.ok ()) 30 "ghost" {} noteStateR1 trigsR1 {}
      petStatePending).1 (by decide),
   (c8_unknown_id_behavior envOnline (GwResult.ok ()) 30 "ghost" {} noteStateR1 trigsR1 {}
      petStatePending).2.1 (by decide),
   (c8_unknown_id_behavior envOnline (GwResult.ok ()) 30 "ghost" {} noteStateR1 trigsR1 {}
      petStatePending).2.2 (by decide)⟩

-- ===========================================================================
-- C1 — pet deletion cascade
-- ===========================================================================

/-- C1 counterexample: deleting p1 succeeds, removes p1 from the pet
store, yet p1's appointment, p1's reminder and all five of its
scheduled triggers are still present afterwards. -/
theorem c1_delete_cascade_cex :
    (handleDeletePet envOnline (GwResult.ok ()) "p1" sysP1).fst = true ∧
    (handleDeletePet envOnline (GwResult.ok ()) "p1" sysP1).snd.petS.pets = [] ∧
    (handleDeletePet envOnline (GwResult.ok ()) "p1" sysP1).snd.apptS.appointments.filter
      (fun a => a.petId == "p1") = [apptA1] ∧
    (handleDeletePet envOnline (GwResult.ok ()) "p1" sysP1).snd.noteS.petReminders.filter
      (fun r => r.petId == "p1") = [remR1] ∧
    (handleDeletePet envOnline (GwResult.ok ()) "p1" sysP1).snd.triggers.filter
      (fun t => t.reminderId == "rem1") = trigsR1 := by
  decide

/-- C1 (amended): the delete flow removes only the pet itself from the
pet store (filtering by id when it succeeds); the appointment store, the
reminder store and the scheduler trigger table are left exactly
unchanged — no cascade and no trigger cancellation happens locally. -/
theorem c1_deletePet_scope (env : Env) (gw : GwResult Unit) (id : String)
    (sys : SystemState) :
    (handleDeletePet env gw id sys).snd.apptS = sys.apptS ∧
    (handleDeletePet env gw id sys).snd.noteS = sys.noteS ∧
    (handleDeletePet env gw id sys).snd.triggers = sys.triggers ∧
    ((handleDeletePet env gw id sys).fst = true →
      (handleDeletePet env gw id sys).snd.petS.pets =
        sys.petS.pets.filter (fun p => !(p.id == id))) := by
  refine ⟨rfl, rfl, rfl, ?_⟩
  intro hok
  unfold handleDeletePet PetStore.deletePet at *
  cases hcond : (env.user && env.configured && !(isLocalId id)) with
  | false => simp [hcond]
  | true =>
      cases gw with
      | err => simp [hcond] at hok
      | ok u => simp [hcond]

/-- C1 witness: the amended theorem applied to the concrete system state
of the counterexample. -/
theorem c1_deletePet_scope_witness :
    (handleDeletePet envOnline (GwResult.ok ()) "p1" sysP1).fst = true ∧
    (handleDeletePet envOnline (GwResult.ok ()) "p1" sysP1).snd.petS.pets =
      sysP1.petS.pets.filter (fun p => !(p.id == "p1")) :=
  ⟨by decide,
   (c1_deletePet_scope envOnline (GwResult.ok ()) "p1" sysP1).2.2.2 (by decide)⟩

-- ===========================================================================
-- C2 — reminder update: cancel-then-recreate
-- ===========================================================================

/-- The hour edit used by the C2 witness: time 8:00 becomes 9:00. -/
def patchHour9 : ReminderPatch := { time := some (9, 0) }

/-- C2: with the gate on, a successful update of reminder id leaves the
trigger table equal to the table with every trigger of that reminder
cancelled, plus — when the merged reminder is enabled and has days —
one fresh trigger per weekday of the new daysOfWeek carrying the new
hour/minute; cancelling when no trigger of that reminder exists is a
no-op. -/
theorem c2_update_cancel_then_register (env : Env) (gw : GwResult Unit) (id : String)
    (u : ReminderPatch) (s : NotificationState) (ts : List Trigger) (r0 : PetReminder)
    (hfind : s.petReminders.find? (fun r => r.id == id) = some r0)
    (hpush : s.settings.pushEnabled = true) (hrem : s.settings.reminders = true)
    (hok : (NotificationStore.updatePetReminder env gw id u s ts).fst = true) :
    ((∀ t ∈ ts, (t.reminderId == id) = false) →
      NotificationService.cancelPetReminder id ts = ts) ∧
    (NotificationStore.updatePetReminder env gw id u s ts).snd.snd =
      NotificationService.cancelPetReminder id ts ++
        (if (applyReminderPatch r0 u).enabled
            && !((applyReminderPatch r0 u).daysOfWeek.isEmpty)
         then (applyReminderPatch r0 u).daysOfWeek.map
                (reminderTrigger (applyReminderPatch r0 u))
         else []) := by
  have hbeq : (r0.id == id) = true := by
    have h := List.find?_some hfind
    simpa using h
  have hid : r0.id = id := eq_of_beq hbeq
  have hupid : (applyReminderPatch r0 u).id = id := hid
  constructor
  · intro hnone
    exact filter_neg_eq_self ts (fun t => t.reminderId == id) hnone
  · have key : (NotificationStore.updateCommit env id (applyReminderPatch r0 u) s ts).snd.snd =
        NotificationService.cancelPetReminder id ts ++
          (if (applyReminderPatch r0 u).enabled
              && !((applyReminderPatch r0 u).daysOfWeek.isEmpty)
           then (applyReminderPatch r0 u).daysOfWeek.map
                  (reminderTrigger (applyReminderPatch r0 u))
           else []) := by
      unfold NotificationStore.updateCommit
      cases hen : (applyReminderPatch r0 u).enabled with
      | false =>
          simp [hpush, hrem, hen]
      | true =>
          cases hday : (applyReminderPatch r0 u).daysOfWeek.isEmpty with
          | true =>
              simp [hpush, hrem, hen, hday, NotificationService.schedulePetReminder, hupid,
                List.isEmpty_iff.mp hday]
          | false =>
              simp [hpush, hrem, hen, hday, NotificationService.schedulePetReminder, hupid]
    unfold NotificationStore.updatePetReminder at hok ⊢
    rw [hfind] at hok ⊢
    dsimp only at hok ⊢
    by_cases hcond : (env.user && env.configured && !(isLocalId id)) = true
    · rw [if_pos hcond] at hok ⊢
      cases gw with
      | err => simp at hok
      | ok _ => exact key
    · rw [if_neg hcond] at hok ⊢
      exact key

/-- C2 witness: editing the hour of the enabled five-weekday reminder
from 8 to 9 yields exactly five triggers for that reminder, none of
which retains hour 8. -/
theorem c2_update_cancel_then_register_witness :
    (noteStateR1.petReminders.find? (fun r => r.id == "rem1") = some remR1) ∧
    noteStateR1.settings.pushEnabled = true ∧
    noteStateR1.settings.reminders = true ∧
    (NotificationStore.updatePetReminder envOnline (GwResult.ok ()) "rem1" patchHour9
        noteStateR1 trigsR1).fst = true ∧
    (NotificationStore.updatePetReminder envOnline (GwResult.ok ()) "rem1" patchHour9
        noteStateR1 trigsR1).snd.snd =
      NotificationService.cancelPetReminder "rem1" trigsR1 ++
        (if (applyReminderPatch remR1 patchHour9).enabled
            && !((applyReminderPatch remR1 patchHour9).daysOfWeek.isEmpty)
         then (applyReminderPatch remR1 patchHour9).daysOfWeek.map
                (reminderTrigger (applyReminderPatch remR1 patchHour9))
         else []) ∧
    ((NotificationStore.updatePetReminder envOnline (GwResult.ok ()) "rem1" patchHour9
        noteStateR1 trigsR1).snd.snd.filter (fun t => t.reminderId == "rem1")).length = 5 ∧
    (NotificationStore.updatePetReminder envOnline (GwResult.ok ()) "rem1" patchHour9
        noteStateR1 trigsR1).snd.snd.all (fun t => !(t.hour == 8)) = true :=
  ⟨by decide, by decide, by decide, by decide,
   (c2_update_cancel_then_register envOnline (GwResult.ok ()) "rem1" patchHour9
      noteStateR1 trigsR1 remR1 (by decide) (by decide) (by decide) (by decide)).2,
   by decide, by decide⟩

-- ===========================================================================
-- C6 — settings gate over trigger registration
-- ===========================================================================

/-- Notification state whose gate is off through the reminders component
only: pushEnabled stays true while reminders is false, with one enabled
reminder live and an empty trigger table. -/
def noteStateGateOff : NotificationState :=
  { settings := { settingsOn with reminders := false }, petReminders := [remR1],
    isInitialized := true, permissionGranted := true, lastSyncedAt := none,
    pendingChanges := false }

/-- C6 counterexample: turning the reminders component back on while
pushEnabled stays true moves the gate from off to on, yet zero triggers
are registered — the trigger table stays empty although an enabled
reminder with nonempty days is live. -/
theorem c6_reminders_toggle_cex :
    (NotificationStore.updateSettings { reminders := some true } noteStateGateOff
        []).fst.settings.pushEnabled = true ∧
    (NotificationStore.updateSettings { reminders := some true } noteStateGateOff
        []).fst.settings.reminders = true ∧
    remR1.enabled = true ∧
    remR1.daysOfWeek ≠ [] ∧
    (NotificationStore.updateSettings { reminders := some true } noteStateGateOff []).snd =
      [] := by
  decide

/-- C6 (amended): with the gate off no reminder mutation registers a
trigger (the offline create still records the reminder); updateSettings
re-registers the live set only on a pushEnabled false-to-true
transition and cancels everything on true-to-false; a patch that leaves
pushEnabled unchanged — such as toggling only the reminders component —
performs no scheduler call at all. -/
theorem c6_gate_behavior (env : Env) (gwr : GwResult PetReminder) (gwu : GwResult Unit)
    (now : Nat) (d : PetReminderData) (id : String) (u : ReminderPatch)
    (su : SettingsPatch) (s : NotificationState) (ts : List Trigger) :
    ((s.settings.pushEnabled && s.settings.reminders) = false →
      (NotificationStore.addPetReminder env gwr now d s ts).snd.snd = ts ∧
      (NotificationStore.updatePetReminder env gwu id u s ts).snd.snd = ts ∧
      ((env.user && env.configured) = false →
        (NotificationStore.addPetReminder env gwr now d s ts).snd.fst.petReminders =
          s.petReminders ++ [withId d (localId now)])) ∧
    ((applySettingsPatch s.settings su).pushEnabled = s.settings.pushEnabled →
      (NotificationStore.updateSettings su s ts).snd = ts) ∧
    (s.settings.pushEnabled = false →
      (applySettingsPatch s.settings su).pushEnabled = true →
      (NotificationStore.updateSettings su s ts).snd =
        NotificationStore.scheduleAllReminders
          { s with settings := applySettingsPatch s.settings su } ts) ∧
    (s.settings.pushEnabled = true →
      (applySettingsPatch s.settings su).pushEnabled = false →
      (NotificationStore.updateSettings su s ts).snd = []) := by
  refine ⟨?_, ?_, ?_, ?_⟩
  · intro hgate
    refine ⟨?_, ?_, ?_⟩
    · cases honline : (env.user && env.configured) with
      | false => simp [NotificationStore.addPetReminder, honline, hgate]
      | true =>
          cases gwr with
          | err => simp [NotificationStore.addPetReminder, honline]
          | ok nr => simp [NotificationStore.addPetReminder, honline, hgate]
    · cases hfind : s.petReminders.find? (fun r => r.id == id) with
      | none => simp [NotificationStore.updatePetReminder, hfind]
      | some r0 =>
          cases hcond : (env.user && env.configured && !(isLocalId id)) with
          | false =>
              simp [NotificationStore.updatePetReminder, hfind, hcond,
                NotificationStore.updateCommit, hgate]
          | true =>
              cases gwu with
              | err => simp [NotificationStore.updatePetReminder, hfind, hcond]
              | ok un =>
                  simp [NotificationStore.updatePetReminder, hfind, hcond,
                    NotificationStore.updateCommit, hgate]
    · intro honline
      simp [NotificationStore.addPetReminder, honline]
  · intro hsame
    simp [NotificationStore.updateSettings, hsame, Bool.and_not_self, Bool.not_and_self]
  · intro hoff hon
    simp [NotificationStore.updateSettings, hoff, hon]
  · intro hon hoff
    simp [NotificationStore.updateSettings, hon, hoff, NotificationStore.cancelAllReminders]

/-- C6 witness: the amended theorem applied at the gate-off state, at a
reminders-only patch, and at the two pushEnabled transitions. -/
theorem c6_gate_behavior_witness :
    ((noteStateGateOff.settings.pushEnabled && noteStateGateOff.settings.reminders) = false →
      (NotificationStore.addPetReminder envOffline GwResult.err 70
          { petId := "p1", petName := "Rex", rtype := ReminderType.walk, title := "Walk",
            body := "", hour := 7, minute := 30, daysOfWeek := [2], enabled := true }
          noteStateGateOff trigsR1).snd.snd = trigsR1 ∧
      (NotificationStore.updatePetReminder envOffline (GwResult.ok ()) "rem1" patchHour9
          noteStateGateOff trigsR1).snd.snd = trigsR1 ∧
      ((envOffline.user && envOffline.configured) = false →
        (NotificationStore.addPetReminder envOffline GwResult.err 70
            { petId := "p1", petName := "Rex", rtype := ReminderType.walk, title := "Walk",
              body := "", hour := 7, minute := 30, daysOfWeek := [2], enabled := true }
            noteStateGateOff trigsR1).snd.fst.petReminders =
          noteStateGateOff.petReminders ++
            [withId { petId := "p1", petName := "Rex", rtype := ReminderType.walk,
                      title := "Walk", body := "", hour := 7, minute := 30,
                      daysOfWeek := [2], enabled := true } (localId 70)])) ∧
    (NotificationStore.updateSettings { reminders := some true } noteStateGateOff []).snd =
      [] ∧
    (NotificationStore.updateSettings { pushEnabled := some true }
        { noteStateR1 with settings := { settingsOn with pushEnabled := false } }
        []).snd =
      NotificationStore.scheduleAllReminders
        { { noteStateR1 with settings := { settingsOn with pushEnabled := false } } with
          settings := applySettingsPatch
            { noteStateR1 with
              settings := { settingsOn with pushEnabled := false } }.settings
            { pushEnabled := some true } }
        [] ∧
    (NotificationStore.updateSettings { pushEnabled := some false } noteStateR1 trigsR1).snd =
      [] :=
  ⟨(c6_gate_behavior envOffline GwResult.err (GwResult.ok ()) 70
      { petId := "p1", petName := "Rex", rtype := ReminderType.walk, title := "Walk",
        body := "", hour := 7, minute := 30, daysOfWeek := [2], enabled := true }
      "rem1" patchHour9 { reminders := some true } noteStateGateOff trigsR1).1,
   (c6_gate_behavior envOffline GwResult.err (GwResult.ok ()) 70
      { petId := "p1", petName := "Rex", rtype := ReminderType.walk, title := "Walk",
        body := "", hour := 7, minute := 30, daysOfWeek := [2], enabled := true }
      "rem1" patchHour9 { reminders := some true } noteStateGateOff []).2.1
     (by decide),
   (c6_gate_behavior envOffline GwResult.err (GwResult.ok ()) 70
      { petId := "p1", petName := "Rex", rtype := ReminderType.walk, title := "Walk",
        body := "", hour := 7, minute := 30, daysOfWeek := [2], enabled := true }
      "rem1" patchHour9 { pushEnabled := some true }
      { noteStateR1 with settings := { settingsOn with pushEnabled := false } } []).2.2.1
     (by decide) (by decide),
   (c6_gate_behavior envOffline GwResult.err (GwResult.ok ()) 70
      { petId := "p1", petName := "Rex", rtype := ReminderType.walk, title := "Walk",
        body := "", hour := 7, minute := 30, daysOfWeek := [2], enabled := true }
      "rem1" patchHour9 { pushEnabled := some false } noteStateR1 trigsR1).2.2.2
     (by decide) (by decide)⟩

-- ===========================================================================
-- C4 — reconciliation idempotence
-- ===========================================================================

/-- C4: running syncToServer twice with the same environment and no
intervening mutation issues zero gateway calls the second time; a pass
only ever replays records whose id is still Local (the call count is
exactly the number of those), and a completed authenticated pass clears
pendingChanges.  The same holds for the notification store, whose count
includes the settings upsert. -/
theorem c4_sync_idempotent (env : Env) (gw gw2 : Pet → GwResult Pet)
    (ngw ngw2 : PetReminder → GwResult PetReminder) (t1 t2 : Nat)
    (s : PetState) (ns : NotificationState) :
    (PetStore.syncToServer env gw2 t2 (PetStore.syncToServer env gw t1 s).fst).snd = 0 ∧
    (PetStore.syncToServer env gw t1 s).snd =
      (if s.pendingChanges && (env.user && env.configured)
       then (s.pets.filter (fun p => isLocalId p.id)).length else 0) ∧
    (s.pendingChanges = true → (env.user && env.configured) = true →
      (PetStore.syncToServer env gw t1 s).fst.pendingChanges = false) ∧
    (NotificationStore.syncToServer env ngw2 t2
        (NotificationStore.syncToServer env ngw t1 ns).fst).snd = 0 ∧
    (NotificationStore.syncToServer env ngw t1 ns).snd =
      (if ns.pendingChanges && (env.user && env.configured)
       then 1 + (ns.petReminders.filter (fun r => isLocalId r.id)).length else 0) ∧
    (ns.pendingChanges = true → (env.user && env.configured) = true →
      (NotificationStore.syncToServer env ngw t1 ns).fst.pendingChanges = false) := by
  refine ⟨?_, ?_, ?_, ?_, ?_, ?_⟩
  · cases hp : s.pendingChanges with
    | false => simp [PetStore.syncToServer, hp]
    | true =>
        cases hc : (env.user && env.configured) with
        | false => simp [PetStore.syncToServer, hp, hc]
        | true => simp [PetStore.syncToServer, hp, hc]
  · cases hp : s.pendingChanges with
    | false => simp [PetStore.syncToServer, hp]
    | true =>
        cases hc : (env.user && env.configured) with
        | false => simp [PetStore.syncToServer, hp, hc]
        | true => simp [PetStore.syncToServer, hp, hc]
  · intro hp hc
    simp [PetStore.syncToServer, hp, hc]
  · cases hp : ns.pendingChanges with
    | false => simp [NotificationStore.syncToServer, hp]
    | true =>
        cases hc : (env.user && env.configured) with
        | false => simp [NotificationStore.syncToServer, hp, hc]
        | true => simp [NotificationStore.syncToServer, hp, hc]
  · cases hp : ns.pendingChanges with
    | false => simp [NotificationStore.syncToServer, hp]
    | true =>
        cases hc : (env.user && env.configured) with
        | false => simp [NotificationStore.syncToServer, hp, hc]
        | true => simp [NotificationStore.syncToServer, hp, hc]
  · intro hp hc
    simp [NotificationStore.syncToServer, hp, hc]

/-- A gateway that accepts every pet create, issuing a canonical id. -/
def gwOkP : Pet → GwResult Pet := fun p => GwResult.ok { p with id := "srv1" }

/-- A gateway that rejects every pet create. -/
def gwFailP : Pet → GwResult Pet := fun _ => GwResult.err

/-- A pet store holding one offline record with pending work. -/
def petStateLocal : PetState :=
  { pets := [petLocal], loading := false, error := none, lastSyncedAt := none,
    pendingChanges := true }

/-- C4 witness: the theorem applied at a concrete pending store: the
first pass issues one call and clears pendingChanges; the second pass
issues zero. -/
theorem c4_sync_idempotent_witness :
    (PetStore.syncToServer envOnline gwOkP 200
        (PetStore.syncToServer envOnline gwOkP 100 petStateLocal).fst).snd = 0 ∧
    (PetStore.syncToServer envOnline gwOkP 100 petStateLocal).snd =
      (if petStateLocal.pendingChanges && (envOnline.user && envOnline.configured)
       then (petStateLocal.pets.filter (fun p => isLocalId p.id)).length else 0) ∧
    (PetStore.syncToServer envOnline gwOkP 100 petStateLocal).fst.pendingChanges = false :=
  ⟨(c4_sync_idempotent envOnline gwOkP gwOkP (fun _ => GwResult.err) (fun _ => GwResult.err)
      100 200 petStateLocal noteStateR1).1,
   (c4_sync_idempotent envOnline gwOkP gwOkP (fun _ => GwResult.err) (fun _ => GwResult.err)
      100 200 petStateLocal noteStateR1).2.1,
   (c4_sync_idempotent envOnline gwOkP gwOkP (fun _ => GwResult.err) (fun _ => GwResult.err)
      100 200 petStateLocal noteStateR1).2.2.1 (by decide) (by decide)⟩

-- ===========================================================================
-- C7 — per-item failure during a reconciliation pass
-- ===========================================================================

/-- C7 counterexample: when the only pending record fails its gateway
create, the pass still clears pendingChanges; the record is left under
its Local id, yet the next pass — even against a healthy gateway —
issues zero calls, so the failed record is not retried. -/
theorem c7_failed_item_not_retried_cex :
    ((PetStore.syncToServer envOnline gwFailP 100 petStateLocal).fst.pets.filter
      (fun p => isLocalId p.id)).length = 1 ∧
    (PetStore.syncToServer envOnline gwFailP 100 petStateLocal).fst.pendingChanges = false ∧
    (PetStore.syncToServer envOnline gwOkP 200
        (PetStore.syncToServer envOnline gwFailP 100 petStateLocal).fst).snd = 0 := by
  decide

/-- A record whose every same-id gateway create fails survives the fold
of a reconciliation pass untouched in the collection. -/
theorem mem_foldl_syncStep (gw : Pet → GwResult Pet) (p : Pet) (l : List Pet)
    (acc : PetState) (hp : p ∈ acc.pets)
    (h : ∀ q ∈ l, q.id = p.id → gw q = GwResult.err) :
    p ∈ (l.foldl (PetStore.syncStep gw) acc).pets := by
  induction l generalizing acc with
  | nil => simpa using hp
  | cons q l ih =>
      rw [List.foldl_cons]
      refine ih _ ?_ (fun q2 hq2 he => h q2 (List.mem_cons_of_mem _ hq2) he)
      unfold PetStore.syncStep
      cases hgw : gw q with
      | err => simpa using hp
      | ok sp =>
          have hne : (p.id == q.id) = false := by
            rw [beq_eq_false_iff_ne]
            intro he
            have hq := h q (List.mem_cons_self _ _) he.symm
            rw [hgw] at hq
            exact GwResult.noConfusion hq
          have hstep : p = (fun x => if x.id == q.id then sp else x) p := by
            simp [hne]
          show p ∈ List.map (fun x => if x.id == q.id then sp else x) acc.pets
          rw [hstep]
          exact List.mem_map_of_mem _ hp

/-- C7 (amended): in an authenticated pass with pending work, every
pending Local record gets exactly one gateway create (a failure does
not abort the rest), lastSyncedAt is stamped once at the end of the
queue regardless of failures — but pendingChanges is cleared
unconditionally as well, so a record whose create failed stays under
its Local id without being marked for retry on the next pass. -/
theorem c7_sync_pass_behavior (env : Env) (gw : Pet → GwResult Pet) (now : Nat)
    (s : PetState) (p : Pet)
    (hp : s.pendingChanges = true) (hc : (env.user && env.configured) = true) :
    (PetStore.syncToServer env gw now s).snd =
      (s.pets.filter (fun q => isLocalId q.id)).length ∧
    (PetStore.syncToServer env gw now s).fst.lastSyncedAt = some now ∧
    (PetStore.syncToServer env gw now s).fst.pendingChanges = false ∧
    (p ∈ s.pets →
      (∀ q ∈ s.pets, isLocalId q.id = true → q.id = p.id → gw q = GwResult.err) →
      p ∈ (PetStore.syncToServer env gw now s).fst.pets) := by
  refine ⟨?_, ?_, ?_, ?_⟩
  · simp [PetStore.syncToServer, hp, hc]
  · simp [PetStore.syncToServer, hp, hc]
  · simp [PetStore.syncToServer, hp, hc]
  · intro hmem hfail
    have hres : (PetStore.syncToServer env gw now s).fst.pets =
        ((s.pets.filter (fun q => isLocalId q.id)).foldl (PetStore.syncStep gw)
          { s with loading := true }).pets := by
      simp [PetStore.syncToServer, hp, hc]
    rw [hres]
    refine mem_foldl_syncStep gw p _ _ hmem ?_
    intro q hq he
    have hq2 := List.mem_filter.mp hq
    exact hfail q hq2.1 hq2.2 he

/-- C7 witness: the amended theorem applied at the one-record pending
store whose gateway create always fails. -/
theorem c7_sync_pass_behavior_witness :
    petStateLocal.pendingChanges = true ∧
    (envOnline.user && envOnline.configured) = true ∧
    (PetStore.syncToServer envOnline gwFailP 100 petStateLocal).snd =
      (petStateLocal.pets.filter (fun q => isLocalId q.id)).length ∧
    (PetStore.syncToServer envOnline gwFailP 100 petStateLocal).fst.lastSyncedAt =
      some 100 ∧
    (PetStore.syncToServer envOnline gwFailP 100 petStateLocal).fst.pendingChanges = false ∧
    petLocal ∈ (PetStore.syncToServer envOnline gwFailP 100 petStateLocal).fst.pets :=
  ⟨by decide, by decide,
   (c7_sync_pass_behavior envOnline gwFailP 100 petStateLocal petLocal (by decide)
      (by decide)).1,
   (c7_sync_pass_behavior envOnline gwFailP 100 petStateLocal petLocal (by decide)
      (by decide)).2.1,
   (c7_sync_pass_behavior envOnline gwFailP 100 petStateLocal petLocal (by decide)
      (by decide)).2.2.1,
   (c7_sync_pass_behavior envOnline gwFailP 100 petStateLocal petLocal (by decide)
      (by decide)).2.2.2 (by decide) (by decide)⟩

-- ===========================================================================
-- C10 — deterministic millisecond-derived local ids
-- ===========================================================================

/-- C10: any two offline creates at the same millisecond return the same
id `local_<now>`, and the store then holds both records — distinct as
soon as their names differ — under that one id; the offline reminder
create derives its id the same way. -/
theorem c10_offline_id_collision (env : Env) (gw1 gw2 : GwResult Pet)
    (gw3 : GwResult PetReminder) (now : Nat) (d1 d2 : PetData) (s : PetState)
    (rd : PetReminderData) (ns : NotificationState) (ts : List Trigger)
    (hoff : (env.user && env.configured) = false) :
    (PetStore.addPet env gw1 now d1 s).fst = some (localId now) ∧
    (PetStore.addPet env gw2 now d2 (PetStore.addPet env gw1 now d1 s).snd).fst =
      some (localId now) ∧
    (PetStore.addPet env gw2 now d2 (PetStore.addPet env gw1 now d1 s).snd).snd.pets =
      mkLocalPet d2 now :: mkLocalPet d1 now :: s.pets ∧
    (mkLocalPet d1 now).id = (mkLocalPet d2 now).id ∧
    (d1.name ≠ d2.name → mkLocalPet d1 now ≠ mkLocalPet d2 now) ∧
    (NotificationStore.addPetReminder env gw3 now rd ns ts).fst = some (localId now) := by
  refine ⟨?_, ?_, ?_, rfl, ?_, ?_⟩
  · simp [PetStore.addPet, hoff, mkLocalPet]
  · simp [PetStore.addPet, hoff, mkLocalPet]
  · simp [PetStore.addPet, hoff, mkLocalPet]
  · intro hname he
    exact hname (congrArg Pet.name he)
  · simp [NotificationStore.addPetReminder, hoff, withId]

/-- C10 witness: two concrete offline creates in the same millisecond
yield the colliding id local_42 and two distinct records under it. -/
theorem c10_offline_id_collision_witness :
    (envOffline.user && envOffline.configured) = false ∧
    (PetStore.addPet envOffline GwResult.err 42 dataMia petStateP1).fst =
      some (localId 42) ∧
    (PetStore.addPet envOffline GwResult.err 42 dataRex
        (PetStore.addPet envOffline GwResult.err 42 dataMia petStateP1).snd).fst =
      some (localId 42) ∧
    (mkLocalPet dataMia 42).id = (mkLocalPet dataRex 42).id ∧
    mkLocalPet dataMia 42 ≠ mkLocalPet dataRex 42 :=
  ⟨by decide,
   (c10_offline_id_collision envOffline GwResult.err GwResult.err GwResult.err 42 dataMia
      dataRex petStateP1
      { petId := "p1", petName := "Rex", rtype := ReminderType.feeding, title := "t",
        body := "b", hour := 8, minute := 0, daysOfWeek := [1], enabled := true }
      noteStateR1 [] (by decide)).1,
   (c10_offline_id_collision envOffline GwResult.err GwResult.err GwResult.err 42 dataMia
      dataRex petStateP1
      { petId := "p1", petName := "Rex", rtype := ReminderType.feeding, title := "t",
        body := "b", hour := 8, minute := 0, daysOfWeek := [1], enabled := true }
      noteStateR1 [] (by decide)).2.1,
   (c10_offline_id_collision envOffline GwResult.err GwResult.err GwResult.err 42 dataMia
      dataRex petStateP1
      { petId := "p1", petName := "Rex", rtype := ReminderType.feeding, title := "t",
        body := "b", hour := 8, minute := 0, daysOfWeek := [1], enabled := true }
      noteStateR1 [] (by decide)).2.2.2.1,
   (c10_offline_id_collision envOffline GwResult.err GwResult.err GwResult.err 42 dataMia
      dataRex petStateP1
      { petId := "p1", petName := "Rex", rtype := ReminderType.feeding, title := "t",
        body := "b", hour := 8, minute := 0, daysOfWeek := [1], enabled := true }
      noteStateR1 [] (by decide)).2.2.2.2.1 (by decide)⟩
